import Mathlib

/-!
Shallow embedding of `src/.dev-team/implementations/project.py`
(`CrumbleBakeryImplementation` and the `__main__` entry routine).

Python dictionaries preserve insertion order, so a dictionary is embedded as
an association list `List (String × _)`.  Heterogeneous dictionary values are
embedded by the inductive type `Value`.  Python methods receive `self` and
could in principle mutate it, so every method is embedded as a function
`BakeryState → Result × BakeryState`; the returned state reflects exactly the
assignments to `self` present in the source (there are none outside
`__init__`).  The class-level attributes `COLOR_PALETTE` and `BREAKPOINTS`
are carried in the state so that frame properties can be stated about them.
-/

/-- Heterogeneous values occurring in the script's dictionaries. -/
inductive Value where
  | str : String → Value
  | bool : Bool → Value
  | int : Int → Value
  | list : List Value → Value
  | obj : List (String × Value) → Value

/-- Association-list lookup, the embedding of Python dictionary indexing. -/
def lookupKV {α : Type} : List (String × α) → String → Option α
  | [], _ => none
  | (k, v) :: rest, key => if k = key then some v else lookupKV rest key

/-- Nested dictionary access along a path of keys. -/
def getPath : Value → List String → Option Value
  | v, [] => some v
  | Value.obj fields, k :: ks =>
      match lookupKV fields k with
      | some v => getPath v ks
      | none => none
  | _, _ :: _ => none

/-- Whether a `Value` is a dictionary. -/
def Value.isObj : Value → Bool
  | Value.obj _ => true
  | _ => false

/-- Number of entries of a dictionary `Value` (0 on non-dictionaries). -/
def Value.objSize : Value → Nat
  | Value.obj fields => fields.length
  | _ => 0

/-- Class attribute `COLOR_PALETTE` (project.py lines 32-36). -/
def COLOR_PALETTE : List (String × String) :=
  [("background", "#f8f5f2"),
   ("primary_text", "#2c1810"),
   ("accent", "#d4941e")]

/-- Class attribute `BREAKPOINTS` (project.py lines 39-42). -/
def BREAKPOINTS : List (String × String) :=
  [("mobile", "0px - 479px"),
   ("desktop", "480px and up")]

/-- Instance state of `CrumbleBakeryImplementation`: the four fields set by
`__init__` plus the class-level attributes. -/
structure BakeryState where
  file_count : Int
  max_lines_per_file : Int
  uses_javascript : Bool
  uses_external_libraries : Bool
  COLOR_PALETTE : List (String × String)
  BREAKPOINTS : List (String × String)

/-- The state produced by `__init__` (project.py lines 44-49). -/
def initState : BakeryState :=
  { file_count := 2
    max_lines_per_file := 200
    uses_javascript := false
    uses_external_libraries := false
    COLOR_PALETTE := COLOR_PALETTE
    BREAKPOINTS := BREAKPOINTS }

/-- Method `validate_architecture_compliance` (project.py lines 51-69). -/
def validate_architecture_compliance (s : BakeryState) :
    List (String × Bool) × BakeryState :=
  ([("file_count", s.file_count == 2),
    ("no_javascript", !s.uses_javascript),
    ("no_external_libs", !s.uses_external_libraries),
    ("semantic_html", true),
    ("mobile_first_css", true),
    ("single_media_query", true),
    ("form_validation", true),
    ("accessibility_features", true)], s)

/-- Method `get_html_structure` (project.py lines 71-113). -/
def get_html_structure (s : BakeryState) : Value × BakeryState :=
  (Value.obj
    [("doctype", Value.str "HTML5"),
     ("html_lang", Value.str "en"),
     ("head", Value.obj
       [("charset", Value.str "UTF-8"),
        ("viewport", Value.str "width=device-width, initial-scale=1.0"),
        ("stylesheet", Value.str "style.css (relative path)")]),
     ("body", Value.obj
       [("header", Value.obj
          [("h1", Value.str "Crumble Bakery (brand name)")]),
        ("main", Value.obj
          [("h2", Value.str "Coming Soon"),
           ("form", Value.obj
             [("method", Value.str "POST"),
              ("input", Value.obj
                [("type", Value.str "email"),
                 ("required", Value.bool true),
                 ("accessibility",
                  Value.str "aria-label and visually-hidden label")]),
              ("button", Value.obj
                [("type", Value.str "submit"),
                 ("text", Value.str "Notify Me")])])]),
        ("footer", Value.obj
          [("social_links", Value.list
             [Value.str "Instagram", Value.str "Facebook", Value.str "Twitter"]),
           ("contact_info", Value.obj
             [("email", Value.str "hello@crumblebakery.com"),
              ("address",
               Value.str "123 Baker Street, Sweet City, SC 12345")])])])],
   s)

/-- Method `get_css_architecture` (project.py lines 115-144). -/
def get_css_architecture (s : BakeryState) : Value × BakeryState :=
  (Value.obj
    [("approach", Value.str "Mobile-First Responsive Design"),
     ("layout_engine", Value.str "CSS Flexbox"),
     ("reset", Value.str "Universal box-sizing and margin/padding reset"),
     ("centering", Value.obj
       [("vertical", Value.str "min-height: 100vh + justify-content: center"),
        ("horizontal", Value.str "align-items: center")]),
     ("typography", Value.str "System font stack (system-ui, sans-serif)"),
     ("color_management", Value.str "CSS Custom Properties (:root variables)"),
     ("responsive_strategy", Value.obj
       [("mobile", Value.str "Default styles (0-479px)"),
        ("desktop", Value.str "Single @media query at 480px+"),
        ("form_layout", Value.obj
          [("mobile", Value.str "flex-direction: column"),
           ("desktop", Value.str "flex-direction: row")])]),
     ("interaction_states", Value.obj
       [("hover_effects", Value.str "Color changes only (no transitions)"),
        ("focus_states",
         Value.str "Border and box-shadow for accessibility")])],
   s)

/-- Method `get_accessibility_features` (project.py lines 146-161). -/
def get_accessibility_features (s : BakeryState) : List String × BakeryState :=
  (["Semantic HTML5 elements (header, main, footer, address)",
    "Proper form labeling with visually-hidden labels",
    "ARIA labels for screen readers",
    "Focus states for keyboard navigation",
    "High contrast color palette for readability",
    "Responsive design for various screen sizes",
    "HTML5 form validation with required attributes"], s)

/-- Method `get_performance_optimizations` (project.py lines 163-178). -/
def get_performance_optimizations (s : BakeryState) : List String × BakeryState :=
  (["No external font requests (system font stack)",
    "No JavaScript reduces bundle size",
    "Minimal CSS with efficient selectors",
    "CSS custom properties for maintainable theming",
    "Single media query reduces complexity",
    "Optimized image-free design with CSS styling",
    "Clean HTML structure for fast parsing"], s)

/-- Method `generate_implementation_report` (project.py lines 180-203).
Dictionary entries are evaluated top to bottom, so the five method calls
thread the state in source order; `self.file_count` in `file_statistics`
is read after those calls. -/
def generate_implementation_report (s : BakeryState) : Value × BakeryState :=
  let p1 := validate_architecture_compliance s
  let p2 := get_html_structure p1.2
  let p3 := get_css_architecture p2.2
  let p4 := get_accessibility_features p3.2
  let p5 := get_performance_optimizations p4.2
  (Value.obj
    [("project_name", Value.str "Crumble Bakery Coming Soon Page"),
     ("implementation_date", Value.str "2026-02-03"),
     ("architecture_compliance",
      Value.obj (p1.1.map (fun kv => (kv.1, Value.bool kv.2)))),
     ("html_structure", p2.1),
     ("css_architecture", p3.1),
     ("accessibility_features", Value.list (p4.1.map Value.str)),
     ("performance_optimizations", Value.list (p5.1.map Value.str)),
     ("file_statistics", Value.obj
       [("total_files", Value.int p5.2.file_count),
        ("html_lines", Value.str "~50 lines"),
        ("css_lines", Value.str "~180 lines"),
        ("total_lines", Value.str "~230 lines (within 400 line limit)")]),
     ("browser_compatibility",
      Value.str "Modern browsers with CSS Flexbox support"),
     ("deployment_ready", Value.bool true)],
   p5.2)

/-- Python f-string rendering of a boolean (`True` / `False`). -/
def pyBoolStr (b : Bool) : String :=
  if b then "True" else "False"

/-- Python f-string rendering of the scalar `Value`s interpolated by the
entry routine. -/
def pyStr : Value → String
  | Value.str t => t
  | Value.bool b => pyBoolStr b
  | Value.int n => toString n
  | Value.list _ => ""
  | Value.obj _ => ""

/-- Split a character list on a separator character, keeping empty pieces,
mirroring the word boundaries produced by replacing the separator with a
space. -/
def splitOnChar (sep : Char) : List Char → List (List Char)
  | [] => [[]]
  | c :: cs =>
      if c = sep then [] :: splitOnChar sep cs
      else
        match splitOnChar sep cs with
        | [] => [[c]]
        | w :: ws => (c :: w) :: ws

/-- Embedding of the Python expression replacing underscores by spaces and
then title-casing, as applied to the compliance keys: every key is a chain of
lowercase ASCII words joined by underscores, on which it splits the words and
capitalizes each. -/
def titleCase (t : String) : String :=
  String.intercalate " "
    ((splitOnChar '_' t.toList).map (fun w => String.capitalize (String.mk w)))

/-- Entry routine (project.py lines 207-226), embedded as the list of lines
printed to standard output.  Each dictionary access is performed with
`getPath`; a missing key (Python `KeyError`, i.e. a non-zero exit) surfaces
as `Except.error`, and normal completion with exit status 0 as `Except.ok`. -/
def mainRun : Except String (List String) := do
  let bakery_impl := initState
  let pr := generate_implementation_report bakery_impl
  let report := pr.1
  let pc := validate_architecture_compliance pr.2
  let compliance := pc.1
  let all_compliant := compliance.all (fun kv => kv.2)
  let totalFiles ← match getPath report ["file_statistics", "total_files"] with
    | some v => Except.ok v
    | none => Except.error "KeyError"
  let deploymentReady ← match getPath report ["deployment_ready"] with
    | some v => Except.ok v
    | none => Except.error "KeyError"
  Except.ok
    (["Crumble Bakery Implementation Status:",
      "Architecture Compliant: " ++ pyBoolStr all_compliant,
      "Files Created: " ++ pyStr totalFiles,
      "Deployment Ready: " ++ pyStr deploymentReady]
     ++ compliance.map (fun kv =>
          (if kv.2 then "✓" else "✗") ++ " " ++ titleCase kv.1 ++ ": "
            ++ pyBoolStr kv.2))

/-- C1: for the instance constructed by `__init__`, the mapping returned by
`validate_architecture_compliance()` has every value equal to `true`. -/
theorem compliance_all_true_of_init :
    ((validate_architecture_compliance initState).1).all (fun kv => kv.2) = true := by
  rfl

/-- C2: every public operation is deterministic and idempotent: on any
instance state, running an operation a second time (on the state left by the
first call) returns exactly the same result and state as the first call. -/
theorem public_ops_deterministic_idempotent (s : BakeryState) :
    validate_architecture_compliance ((validate_architecture_compliance s).2)
        = validate_architecture_compliance s
      ∧ get_html_structure ((get_html_structure s).2) = get_html_structure s
      ∧ get_css_architecture ((get_css_architecture s).2) = get_css_architecture s
      ∧ get_accessibility_features ((get_accessibility_features s).2)
        = get_accessibility_features s
      ∧ get_performance_optimizations ((get_performance_optimizations s).2)
        = get_performance_optimizations s
      ∧ generate_implementation_report ((generate_implementation_report s).2)
        = generate_implementation_report s :=
  ⟨rfl, rfl, rfl, rfl, rfl, rfl⟩

/-- C3: on any instance state, the report of `generate_implementation_report()`
has the fields `architecture_compliance`, `html_structure`, `css_architecture`,
`accessibility_features` and `performance_optimizations` equal to the results
of the corresponding methods, plus the literal fields `project_name`,
`implementation_date`, `file_statistics`, `browser_compatibility` and
`deployment_ready`. -/
theorem report_fields_agree_with_methods (s : BakeryState) :
    getPath (generate_implementation_report s).1 ["architecture_compliance"]
        = some (Value.obj (((validate_architecture_compliance s).1).map
            (fun kv => (kv.1, Value.bool kv.2))))
      ∧ getPath (generate_implementation_report s).1 ["html_structure"]
        = some (get_html_structure s).1
      ∧ getPath (generate_implementation_report s).1 ["css_architecture"]
        = some (get_css_architecture s).1
      ∧ getPath (generate_implementation_report s).1 ["accessibility_features"]
        = some (Value.list (((get_accessibility_features s).1).map Value.str))
      ∧ getPath (generate_implementation_report s).1 ["performance_optimizations"]
        = some (Value.list (((get_performance_optimizations s).1).map Value.str))
      ∧ getPath (generate_implementation_report s).1 ["project_name"]
        = some (Value.str "Crumble Bakery Coming Soon Page")
      ∧ getPath (generate_implementation_report s).1 ["implementation_date"]
        = some (Value.str "2026-02-03")
      ∧ getPath (generate_implementation_report s).1 ["file_statistics"]
        = some (Value.obj
            [("total_files", Value.int s.file_count),
             ("html_lines", Value.str "~50 lines"),
             ("css_lines", Value.str "~180 lines"),
             ("total_lines", Value.str "~230 lines (within 400 line limit)")])
      ∧ getPath (generate_implementation_report s).1 ["browser_compatibility"]
        = some (Value.str "Modern browsers with CSS Flexbox support")
      ∧ getPath (generate_implementation_report s).1 ["deployment_ready"]
        = some (Value.bool true) :=
  ⟨rfl, rfl, rfl, rfl, rfl, rfl, rfl, rfl, rfl, rfl⟩

/-- C4: on any instance state, `get_html_structure()` has, under the path
`body`, `footer`, `social_links`, exactly the ordered sequence
Instagram, Facebook, Twitter. -/
theorem html_footer_social_links (s : BakeryState) :
    getPath (get_html_structure s).1 ["body", "footer", "social_links"]
      = some (Value.list
          [Value.str "Instagram", Value.str "Facebook", Value.str "Twitter"]) := by
  rfl

/-- C5: on any instance state, the report returned by
`generate_implementation_report()` has a `deployment_ready` field equal to
`true`. -/
theorem report_deployment_ready_true (s : BakeryState) :
    getPath (generate_implementation_report s).1 ["deployment_ready"]
      = some (Value.bool true) := by
  rfl

/-- C6: the entry routine completes without raising (exit status 0, embedded
as `Except.ok`) and its standard output is exactly the listed lines, which
contain the line saying the architecture is compliant with value True. -/
theorem mainRun_output_and_success :
    mainRun = Except.ok
        ["Crumble Bakery Implementation Status:",
         "Architecture Compliant: True",
         "Files Created: 2",
         "Deployment Ready: True",
         "✓ File Count: True",
         "✓ No Javascript: True",
         "✓ No External Libs: True",
         "✓ Semantic Html: True",
         "✓ Mobile First Css: True",
         "✓ Single Media Query: True",
         "✓ Form Validation: True",
         "✓ Accessibility Features: True"]
      ∧ "Architecture Compliant: True" ∈ mainRun.toOption.getD [] := by
  exact ⟨rfl, by decide⟩

/-- C7: every public operation is a total computation: on any instance state
each operation completes and returns a fully formed result of the documented
shape (8 compliance entries, dictionary structures, 7-element feature lists,
a 10-field report). -/
theorem public_ops_total (s : BakeryState) :
    ((validate_architecture_compliance s).1).length = 8
      ∧ Value.isObj (get_html_structure s).1 = true
      ∧ Value.isObj (get_css_architecture s).1 = true
      ∧ ((get_accessibility_features s).1).length = 7
      ∧ ((get_performance_optimizations s).1).length = 7
      ∧ Value.objSize (generate_implementation_report s).1 = 10 :=
  ⟨rfl, rfl, rfl, rfl, rfl, rfl⟩

/-- C8: no public operation mutates the instance: on any state, each
operation returns the state unchanged, so the fields set by `__init__`
(`file_count`, `max_lines_per_file`, `uses_javascript`,
`uses_external_libraries`) and the class-level `COLOR_PALETTE` and
`BREAKPOINTS` carried in the state are all preserved. -/
theorem public_ops_preserve_state (s : BakeryState) :
    (validate_architecture_compliance s).2 = s
      ∧ (get_html_structure s).2 = s
      ∧ (get_css_architecture s).2 = s
      ∧ (get_accessibility_features s).2 = s
      ∧ (get_performance_optimizations s).2 = s
      ∧ (generate_implementation_report s).2 = s :=
  ⟨rfl, rfl, rfl, rfl, rfl, rfl⟩

/-- C9: on any instance state, the mapping returned by
`validate_architecture_compliance()` has exactly the eight keys
`file_count`, `no_javascript`, `no_external_libs`, `semantic_html`,
`mobile_first_css`, `single_media_query`, `form_validation`,
`accessibility_features`, in that order and no others. -/
theorem compliance_keys_exact (s : BakeryState) :
    ((validate_architecture_compliance s).1).map Prod.fst
      = ["file_count", "no_javascript", "no_external_libs", "semantic_html",
         "mobile_first_css", "single_media_query", "form_validation",
         "accessibility_features"] := by
  rfl

/-- C10: in `validate_architecture_compliance()`, the values for
`semantic_html`, `mobile_first_css`, `single_media_query`, `form_validation`
and `accessibility_features` are the literal `true` for every instance state,
while `file_count` is `true` iff the instance's `file_count` equals 2,
`no_javascript` is `true` iff `uses_javascript` is false, and
`no_external_libs` is `true` iff `uses_external_libraries` is false. -/
theorem compliance_values_semantics (s : BakeryState) :
    lookupKV (validate_architecture_compliance s).1 "semantic_html" = some true
      ∧ lookupKV (validate_architecture_compliance s).1 "mobile_first_css" = some true
      ∧ lookupKV (validate_architecture_compliance s).1 "single_media_query" = some true
      ∧ lookupKV (validate_architecture_compliance s).1 "form_validation" = some true
      ∧ lookupKV (validate_architecture_compliance s).1 "accessibility_features"
        = some true
      ∧ (lookupKV (validate_architecture_compliance s).1 "file_count" = some true
          ↔ s.file_count = 2)
      ∧ (lookupKV (validate_architecture_compliance s).1 "no_javascript" = some true
          ↔ s.uses_javascript = false)
      ∧ (lookupKV (validate_architecture_compliance s).1 "no_external_libs" = some true
          ↔ s.uses_external_libraries = false) := by
  refine ⟨rfl, rfl, rfl, rfl, rfl, ?_, ?_, ?_⟩
  · show some (s.file_count == 2) = some true ↔ s.file_count = 2
    simp
  · show some (!s.uses_javascript) = some true ↔ s.uses_javascript = false
    simp
  · show some (!s.uses_external_libraries) = some true
      ↔ s.uses_external_libraries = false
    simp
